import Mathlib

set_option maxRecDepth 20000

/-!
Verification of the beam-analysis report generator (`main.py`).

The program reads a spreadsheet of beam stations (columns "X", "Shear force",
"Bending Moment"), assembles a PyLaTeX document containing a data table
(values formatted with the Python format spec `.1f`) and two TikZ/pgfplots
diagrams whose coordinate lists are produced by f-strings over
`df.iterrows()`, and finally renders a PDF.

Modelling conventions:

* Numeric cell values are modelled as exact rationals.  `pandas.read_excel`
  yields `float64` columns whenever a column holds a fractional value, and
  `df.iterrows()` upcasts every row to the common dtype, so for any dataset
  containing a fractional value (such as the spec's example dataset, which
  holds 67.5) every value reaching an f-string is a `float64`.  Python's
  `str` of such a float is its shortest round-tripping decimal, which for
  floats with a short exact decimal expansion is exactly that expansion with
  at least one fractional digit (`0.0`, `6.0`, `67.5`, ...).  `pyFloatRepr`
  implements this decimal rendering; it is faithful for every rational whose
  denominator divides a power of ten within `Float`'s round-trip range.
* Python's `f"{v:.1f}"` rounds the value to one decimal digit, ties to even;
  `fmt_1f` implements this on rationals.
* Fallible Python operations are modelled with `Except`:
  `pd.read_excel` raises `FileNotFoundError` when the file is absent
  (`PipeError.fileNotFound`), `row[c]` raises `KeyError` when the column is
  absent (`PipeError.keyError c`), and formatting a non-numeric cell with
  `.1f` raises `ValueError` (`PipeError.valueError`).
-/

/-- Concatenation of a list of strings, in order (the net effect of the
`tikz_code += line` accumulation loops in the source). -/
def strConcat : List String → String
  | [] => ""
  | s :: rest => s ++ strConcat rest

/-- Digit extraction with explicit fuel, so that the definition is
structurally recursive and evaluates inside the kernel; `fuel = n` always
suffices since a number has no more than `n + 1` decimal digits. -/
def natDigitsAux : Nat → Nat → List Nat
  | 0, n => [n % 10]
  | fuel + 1, n => if n < 10 then [n] else natDigitsAux fuel (n / 10) ++ [n % 10]

/-- Big-endian decimal digits of a natural number (`[0]` for zero), as the
digit sequence Python prints for the integer part of a number. -/
def natDigits (n : Nat) : List Nat := natDigitsAux n n

/-- The ASCII character of a decimal digit. -/
def digitChar (d : Nat) : Char := Char.ofNat (48 + d)

/-- Decimal rendering of a natural number. -/
def natStr (n : Nat) : String := String.mk ((natDigits n).map digitChar)

/-- Numeric value of an ASCII digit character. -/
def digitVal (c : Char) : Nat := c.toNat - 48

/-- Whether a character is an ASCII decimal digit. -/
def isDig (c : Char) : Bool := 48 ≤ c.toNat && c.toNat ≤ 57

/-- Value of a big-endian digit list. -/
def parseNatDigits (l : List Nat) : Nat := l.foldl (fun a d => a * 10 + d) 0

/-- Value of a big-endian list of ASCII digit characters. -/
def parseNatChars (l : List Char) : Nat := parseNatDigits (l.map digitVal)

/-- Front-pad a digit list with zeros to length `k`. -/
def padTo (k : Nat) (l : List Nat) : List Nat :=
  List.replicate (k - l.length) 0 ++ l

/-- Drop trailing zero digits (Python float `repr` prints the shortest
fraction, so `0.500` prints as `0.5`). -/
def dropTrailZeros (l : List Nat) : List Nat :=
  (l.reverse.dropWhile (fun d => d = 0)).reverse

/-- Smallest exponent `k ≤ 19` with `10 ^ k` divisible by `d` (the length of
`d`'s decimal-fraction expansion), zero when none exists. -/
def min10Exp (d : Nat) : Nat :=
  match (List.range 20).find? (fun k => 10 ^ k % d == 0) with
  | some k => k
  | none => 0

/-- The fractional-digit part of Python's float rendering: the `k`-digit
fraction `fr`, shortest form, at least one digit. -/
def fracStr (fr k : Nat) : String :=
  let ds := dropTrailZeros (padTo k (natDigits fr))
  if ds.isEmpty then "0" else String.mk (ds.map digitChar)

/-- Python float rendering of the non-negative rational `n / d`. -/
def pyFloatReprAbs (n d : Nat) : String :=
  let k := min10Exp d
  let scaled := n * 10 ^ k / d
  natStr (scaled / 10 ^ k) ++ "." ++ fracStr (scaled % 10 ^ k) k

/-- Python's `str` of a float value, modelled on rationals with a finite
decimal expansion: sign, integer part, point, shortest fraction with at
least one digit. -/
def pyFloatRepr (q : ℚ) : String :=
  (if q < 0 then "-" else "") ++ pyFloatReprAbs q.num.natAbs q.den

/-- Round the fraction `N / D` to the nearest natural number, ties to even
(IEEE / Python rounding used by the `.1f` format spec). -/
def roundHalfEvenNat (N D : Nat) : Nat :=
  let t := N / D
  let r := N % D
  if 2 * r < D then t
  else if D < 2 * r then t + 1
  else if t % 2 = 0 then t else t + 1

/-- Python's `f"{q:.1f}"`: `|q| * 10` rounded half-to-even to an integer
number of tenths, printed as integer part, point, one digit, with a sign
for negative inputs. -/
def fmt_1f (q : ℚ) : String :=
  let n := roundHalfEvenNat (q.num.natAbs * 10) q.den
  (if q < 0 then "-" else "") ++ natStr (n / 10) ++ "." ++ natStr (n % 10)

/-- A rational value with a finite decimal expansion of at most 19 digits;
every value in scope for the program (floats with exact short decimal
spellings) satisfies this. -/
def IsDec (q : ℚ) : Prop := 10 ^ 19 % q.den = 0

instance : DecidablePred IsDec := fun q => by
  unfold IsDec; infer_instance

/-- Parse the decimal spelling `digits.digits` of a non-negative rational
(the inverse reading of the coordinate tokens the program prints). -/
def parseDecAbs (cs : List Char) : Option ℚ :=
  match cs.dropWhile (fun c => c != '.') with
  | c :: fp =>
    if c = '.' ∧ cs.takeWhile (fun c => c != '.') ≠ [] ∧ fp ≠ []
        ∧ (cs.takeWhile (fun c => c != '.') ++ fp).all isDig then
      some (mkRat (parseNatChars (cs.takeWhile (fun c => c != '.')) * 10 ^ fp.length
        + parseNatChars fp) (10 ^ fp.length))
    else none
  | [] => none

/-- Parse an optionally signed decimal spelling. -/
def parseDecL (cs : List Char) : Option ℚ :=
  match cs with
  | [] => none
  | c :: rest =>
    if c = '-' then (parseDecAbs rest).map (fun q => -q) else parseDecAbs (c :: rest)

/-- Parse a decimal number from a string. -/
def parseDec (s : String) : Option ℚ := parseDecL s.data

/-- Parse one plotted coordinate token back into its pair of values:
an opening parenthesis, the x spelling, a comma and a space, the y
spelling, a closing parenthesis. -/
def parseCoordToken (s : String) : Option (ℚ × ℚ) :=
  match s.data with
  | [] => none
  | c :: rest =>
    if c = '(' then
      match rest.dropWhile (fun ch => ch != ',') with
      | [] => none
      | c2 :: rest2 =>
        if c2 = ',' then
          match rest2 with
          | [] => none
          | c3 :: rest3 =>
            if c3 = ' ' then
              match rest3.dropWhile (fun ch => ch != ')') with
              | [c4] =>
                if c4 = ')' then
                  match parseDecL (rest.takeWhile (fun ch => ch != ',')),
                      parseDecL (rest3.takeWhile (fun ch => ch != ')')) with
                  | some x, some y => some (x, y)
                  | _, _ => none
                else none
              | _ => none
            else none
        else none
    else none

/-- A spreadsheet cell as pandas hands it to the f-strings: a numeric
(float64) value, modelled as an exact rational, or a text value. -/
inductive CellVal where
  | num (q : ℚ)
  | text (s : String)
deriving DecidableEq

/-- The Python exceptions the pipeline can raise: `FileNotFoundError` from
`pd.read_excel`, `KeyError` from `row[c]` on a missing column label, and
`ValueError` from formatting a text cell with the `f` format spec. -/
inductive PipeError where
  | fileNotFound
  | keyError (col : String)
  | valueError
deriving DecidableEq

/-- The DataFrame produced by `pd.read_excel`: column labels plus rows of
cells (one list of cells per spreadsheet row, positionally aligned with the
labels). -/
structure RawTable where
  columns : List String
  rows : List (List CellVal)
deriving DecidableEq

/-- Position of a column label in the label list. -/
def colIndex (c : String) : List String → Option Nat
  | [] => none
  | c2 :: rest => if c2 = c then some 0 else (colIndex c rest).map (fun i => i + 1)

/-- `row[c]` on a pandas row Series: the cell under column label `c`,
`KeyError` when the label is absent. -/
def rowVal (cols : List String) (row : List CellVal) (c : String) :
    Except PipeError CellVal :=
  match colIndex c cols with
  | none => Except.error (PipeError.keyError c)
  | some i =>
    match row[i]? with
    | none => Except.error (PipeError.keyError c)
    | some v => Except.ok v

/-- `pd.read_excel('beam_data.xlsx')`: the parsed table when the file
exists, `FileNotFoundError` when it does not. -/
def read_excel (file : Option RawTable) : Except PipeError RawTable :=
  match file with
  | none => Except.error PipeError.fileNotFound
  | some t => Except.ok t

/-- Python `f"{v}"` interpolation of a cell value: float rendering for a
number, the text itself for a string. -/
def pyRepr : CellVal → String
  | CellVal.num q => pyFloatRepr q
  | CellVal.text s => s

/-- Python `f"{row[c]:.1f}"`: one-decimal fixed-point for a numeric cell,
`ValueError` for a text cell (format code `f` is invalid for `str`). -/
def fmtCell (cols : List String) (row : List CellVal) (c : String) :
    Except PipeError String := do
  let v ← rowVal cols row c
  match v with
  | CellVal.num q => pure (fmt_1f q)
  | CellVal.text _ => Except.error PipeError.valueError

/-- One data row of the report table:
`(f"{row['X']:.1f}", f"{row['Shear force']:.1f}", f"{row['Bending Moment']:.1f}")`,
fields evaluated left to right. -/
def tableRow (cols : List String) (row : List CellVal) :
    Except PipeError (List String) := do
  let x ← fmtCell cols row "X"
  let s ← fmtCell cols row "Shear force"
  let b ← fmtCell cols row "Bending Moment"
  pure [x, s, b]

/-- The `for _, row in df.iterrows(): table.add_row(...)` loop of
`generate_beam_report`; the first failing row aborts the run. -/
def buildTableRows (cols : List String) :
    List (List CellVal) → Except PipeError (List (List String))
  | [] => pure []
  | row :: rest => do
    let r ← tableRow cols row
    let rs ← buildTableRows cols rest
    pure (r :: rs)

/-- The fixed text `generate_sfd_plot` places before the coordinate lines
(the raw triple-quoted string through `coordinates {`). -/
def sfdHeader : String :=
  "\n    \\begin\x7bcenter\x7d\n    \\begin\x7btikzpicture\x7d\n    \\begin\x7baxis\x7d[\n        width=14cm,\n        height=6cm,\n        xlabel=\x7bBeam Length (m)\x7d,\n        ylabel=\x7bShear Force (kN)\x7d,\n        grid=major,\n        grid style=\x7bdotted,gray!50\x7d,\n        xmin=0, xmax=12,\n        ymin=-50, ymax=50,\n        xtick=\x7b0,2,4,6,8,10,12\x7d,\n        ytick=\x7b-40,-20,0,20,40\x7d,\n        legend pos=north east,\n        title=\x7bShear Force Diagram\x7d,\n        axis lines=left,\n        thick\n    ]\n    \\addplot[\n        color=blue,\n        mark=*,\n        mark size=1.5pt,\n        line width=1.5pt\n    ]\n    coordinates \x7b\n    "

/-- The fixed text `generate_sfd_plot` places after the coordinate lines:
the dashed red zero-reference line and the two-entry legend. -/
def sfdFooter : String :=
  "    \x7d;\n    \\addplot[color=red, dashed, line width=1pt] coordinates \x7b(0,0) (12,0)\x7d;\n    \\legend\x7bShear Force, Zero Line\x7d\n    \\end\x7baxis\x7d\n    \\end\x7btikzpicture\x7d\n    \\end\x7bcenter\x7d\n    "

/-- The fixed text `generate_bmd_plot` places before the coordinate lines. -/
def bmdHeader : String :=
  "\n    \\begin\x7bcenter\x7d\n    \\begin\x7btikzpicture\x7d\n    \\begin\x7baxis\x7d[\n        width=14cm,\n        height=6cm,\n        xlabel=\x7bBeam Length (m)\x7d,\n        ylabel=\x7bBending Moment (kNm)\x7d,\n        grid=major,\n        grid style=\x7bdotted,gray!50\x7d,\n        xmin=0, xmax=12,\n        ymin=0, ymax=180,\n        xtick=\x7b0,2,4,6,8,10,12\x7d,\n        ytick=\x7b0,40,80,120,160\x7d,\n        legend pos=north east,\n        title=\x7bBending Moment Diagram\x7d,\n        axis lines=left,\n        thick\n    ]\n    \\addplot[\n        color=red,\n        mark=*,\n        mark size=1.5pt,\n        line width=1.5pt\n    ]\n    coordinates \x7b\n    "

/-- The fixed text `generate_bmd_plot` places after the coordinate lines:
a single-entry legend and no zero line. -/
def bmdFooter : String :=
  "    \x7d;\n    \\legend\x7bBending Moment\x7d\n    \\end\x7baxis\x7d\n    \\end\x7btikzpicture\x7d\n    \\end\x7bcenter\x7d\n    "

/-- One SFD coordinate line:
`f"        ({row['X']}, {row['Shear force']})\n"`. -/
def sfdLine (cols : List String) (row : List CellVal) : Except PipeError String := do
  let x ← rowVal cols row "X"
  let y ← rowVal cols row "Shear force"
  pure ("        (" ++ pyRepr x ++ ", " ++ pyRepr y ++ ")\n")

/-- One BMD coordinate line:
`f"        ({row['X']}, {row['Bending Moment']})\n"`. -/
def bmdLine (cols : List String) (row : List CellVal) : Except PipeError String := do
  let x ← rowVal cols row "X"
  let y ← rowVal cols row "Bending Moment"
  pure ("        (" ++ pyRepr x ++ ", " ++ pyRepr y ++ ")\n")

/-- The `tikz_code += ...` coordinate loop of `generate_sfd_plot`
(string concatenation is associative, so accumulating on the right is the
same string the left fold in the source builds). -/
def sfdCoordString (cols : List String) : List (List CellVal) → Except PipeError String
  | [] => pure ""
  | row :: rest => do
    let l ← sfdLine cols row
    let ls ← sfdCoordString cols rest
    pure (l ++ ls)

/-- The coordinate loop of `generate_bmd_plot`. -/
def bmdCoordString (cols : List String) : List (List CellVal) → Except PipeError String
  | [] => pure ""
  | row :: rest => do
    let l ← bmdLine cols row
    let ls ← bmdCoordString cols rest
    pure (l ++ ls)

/-- `generate_sfd_plot(df)`: header, one coordinate line per row in order,
footer. -/
def generate_sfd_plot (df : RawTable) : Except PipeError String := do
  let c ← sfdCoordString df.columns df.rows
  pure (sfdHeader ++ c ++ sfdFooter)

/-- `generate_bmd_plot(df)`: header, one coordinate line per row in order,
footer. -/
def generate_bmd_plot (df : RawTable) : Except PipeError String := do
  let c ← bmdCoordString df.columns df.rows
  pure (bmdHeader ++ c ++ bmdFooter)

/-- A node of the PyLaTeX document tree as `generate_beam_report` builds it:
`text` is a plain `doc.append(str)` (escaped at render time), `noescape` a
`doc.append(NoEscape(...))`, `command` a preamble `Command(name, arg)`,
`sec`/`subsec` the `Section`/`Subsection` containers entered with
`doc.create` (children collected inside the `with` block), `figure` an image
figure with caption, `table` a `Tabular` with its rows in order. -/
inductive DocItem where
  | text (s : String)
  | noescape (s : String)
  | command (name : String) (arg : String)
  | sec (title : String) (items : List DocItem)
  | subsec (title : String) (items : List DocItem)
  | figure (position : String) (image : String) (width : String) (caption : String)
  | table (spec : String) (rows : List (List String))

/-- The `Document` object: class, class options, loaded packages with their
options, preamble entries, and body items in append order. -/
structure PyDocument where
  documentclass : String
  docOptions : List String
  packages : List (String × List String)
  preamble : List DocItem
  body : List DocItem

/-- Header row of the data table. -/
def headerRow : List String :=
  ["Position (m)", "Shear Force (kN)", "Bending Moment (kNm)"]

/-- The document `generate_beam_report` assembles, as a function of its
three data-dependent fragments: the formatted table body, the SFD TikZ
fragment and the BMD TikZ fragment.  Everything else is fixed text from the
source, including the two "Key Observations" bullet lists. -/
def mkReportDoc (tbl : List (List String)) (sfd bmd : String) : PyDocument where
  documentclass := "report"
  docOptions := ["a4paper", "12pt"]
  packages := [("tikz", []), ("pgfplots", []), ("geometry", ["margin=1in"]), ("graphicx", [])]
  preamble := [
    DocItem.command "title" "Beam Analysis Report",
    DocItem.command "author" "Structural Engineering Analysis",
    DocItem.command "date" "\\today"]
  body := [
    DocItem.noescape "\\maketitle",
    DocItem.noescape "\\tableofcontents",
    DocItem.noescape "\\newpage",
    DocItem.sec "Introduction" [
      DocItem.text "This engineering report presents a comprehensive analysis of a simply supported beam subjected to various loads. The analysis includes shear force and bending moment calculations with corresponding diagrams.",
      DocItem.subsec "Beam Description" [
        DocItem.text "The structural element under analysis is a simply supported beam with pinned support at one end and roller support at the other. This configuration allows for rotation at both ends while preventing vertical displacement at supports.",
        DocItem.figure "h!" "beam.png" "0.8\\textwidth" "Simply Supported Beam Configuration"],
      DocItem.subsec "Data Source" [
        DocItem.text "The force and moment analysis data was obtained from the provided Excel spreadsheet. The calculated values at various points along the beam length are presented in the table below:",
        DocItem.table "|c|c|c|" (headerRow :: tbl)]],
    DocItem.sec "Analysis" [
      DocItem.text "The beam analysis reveals the internal forces and moments along the beam length. Key observations from the calculations:",
      DocItem.subsec "Shear Force Diagram (SFD)" [
        DocItem.text "The Shear Force Diagram illustrates the variation of internal shear force along the beam length. Positive values indicate upward shear, while negative values indicate downward shear.",
        DocItem.noescape sfd,
        DocItem.text "\\textbf\x7bKey Observations:\x7d",
        DocItem.noescape "\\begin\x7bitemize\x7d",
        DocItem.noescape "\\item Maximum shear force: 45 kN",
        DocItem.noescape "\\item Zero shear occurs at 7.5 m from left support",
        DocItem.noescape "\\item Shear force changes sign at the point of maximum moment",
        DocItem.noescape "\\end\x7bitemize\x7d"],
      DocItem.subsec "Bending Moment Diagram (BMD)" [
        DocItem.text "The Bending Moment Diagram shows the variation of internal bending moment. Positive bending moment causes tension in the bottom fibers of the beam.",
        DocItem.noescape bmd,
        DocItem.text "\\textbf\x7bKey Observations:\x7d",
        DocItem.noescape "\\begin\x7bitemize\x7d",
        DocItem.noescape "\\item Maximum bending moment: 168.75 kNm at 7.5 m",
        DocItem.noescape "\\item Zero moments occur at both supports",
        DocItem.noescape "\\item Parabolic distribution indicates uniformly distributed load",
        DocItem.noescape "\\end\x7bitemize\x7d"]],
    DocItem.sec "Summary" [
      DocItem.text "This analysis successfully demonstrates the fundamental principles of beam mechanics for a simply supported configuration.",
      DocItem.subsec "Shear Force Diagram" [
        DocItem.text "A Shear Force Diagram (SFD) is a graphical representation that shows the internal shear force at every point along a beam. It helps structural engineers identify critical sections where shear stresses are maximum and where shear reinforcement may be required."],
      DocItem.subsec "Bending Moment Diagram" [
        DocItem.text "A Bending Moment Diagram (BMD) illustrates the internal bending moment along the beam length. It indicates locations of maximum bending stress, helping engineers determine appropriate beam dimensions and reinforcement for moment resistance."],
      DocItem.text "Both diagrams are essential tools in structural design, ensuring that beams are properly sized and reinforced to withstand applied loads safely."]]

/-- `generate_beam_report()` up to the PDF render: read the spreadsheet,
format the table rows, generate both plots, assemble the document; the
first raised exception aborts the run.  `today` is the current date the
environment would supply; the source never interpolates it - it emits the
literal `\today` macro - so it cannot influence the produced source. -/
def generate_beam_report (today : String) (file : Option RawTable) :
    Except PipeError PyDocument :=
  match read_excel file with
  | Except.error e => Except.error e
  | Except.ok df =>
    match buildTableRows df.columns df.rows with
    | Except.error e => Except.error e
    | Except.ok tbl =>
      match generate_sfd_plot df with
      | Except.error e => Except.error e
      | Except.ok sfd =>
        match generate_bmd_plot df with
        | Except.error e => Except.error e
        | Except.ok bmd => Except.ok (mkReportDoc tbl sfd bmd)

/-- Files the run leaves in the working directory:
`doc.generate_pdf('beam_analysis_report', clean_tex=False)` runs last and
writes the rendered PDF plus the kept intermediate source; a run that fails
earlier writes nothing. -/
def writtenFiles (r : Except PipeError PyDocument) : List String :=
  match r with
  | Except.error _ => []
  | Except.ok _ => ["beam_analysis_report.pdf", "beam_analysis_report.tex"]

/-- One Record of the spec's Dataset: a beam station's position, shear
force and bending moment (float64 values, modelled as exact rationals). -/
structure Record where
  X : ℚ
  shearForce : ℚ
  bendingMoment : ℚ
deriving DecidableEq

/-- The cells of a Record's spreadsheet row, in column order. -/
def recordCells (r : Record) : List CellVal :=
  [CellVal.num r.X, CellVal.num r.shearForce, CellVal.num r.bendingMoment]

/-- The DataFrame a purely numeric Dataset loads to: the three required
columns and one row of cells per Record, order preserved. -/
def datasetTable (df : List Record) : RawTable where
  columns := ["X", "Shear force", "Bending Moment"]
  rows := df.map recordCells

/-- The SFD coordinate token of one Record. -/
def sfdToken (r : Record) : String :=
  "(" ++ pyFloatRepr r.X ++ ", " ++ pyFloatRepr r.shearForce ++ ")"

/-- The BMD coordinate token of one Record. -/
def bmdToken (r : Record) : String :=
  "(" ++ pyFloatRepr r.X ++ ", " ++ pyFloatRepr r.bendingMoment ++ ")"

/-- The full SFD coordinate line of one Record (indentation and newline). -/
def sfdLineR (r : Record) : String := "        " ++ sfdToken r ++ "\n"

/-- The full BMD coordinate line of one Record. -/
def bmdLineR (r : Record) : String := "        " ++ bmdToken r ++ "\n"

/-- The formatted table row of one Record. -/
def recordTableRow (r : Record) : List String :=
  [fmt_1f r.X, fmt_1f r.shearForce, fmt_1f r.bendingMoment]

/-- Substring containment: `pat` occurs contiguously inside `s`. -/
def Contains (s pat : String) : Prop := List.IsInfix pat.data s.data

instance (s pat : String) : Decidable (Contains s pat) := List.decidableInfix _ _

deriving instance DecidableEq for Except

/-- The rows (header first) of the table in the Introduction section's
"Data Source" subsection of an assembled document. -/
def dataSourceRows (d : PyDocument) : Option (List (List String)) :=
  match d.body[3]? with
  | some (DocItem.sec _ items) =>
    match items[2]? with
    | some (DocItem.subsec _ its) =>
      match its[1]? with
      | some (DocItem.table _ rows) => some rows
      | _ => none
    | _ => none
  | _ => none

/-- The bullet items of the "Key Observations" list in the SFD subsection
of the Analysis section. -/
def sfdObservations (d : PyDocument) : Option (List DocItem) :=
  match d.body[4]? with
  | some (DocItem.sec _ items) =>
    match items[1]? with
    | some (DocItem.subsec _ its) => some ((its.drop 4).take 3)
    | _ => none
  | _ => none

/-- The bullet items of the "Key Observations" list in the BMD subsection
of the Analysis section. -/
def bmdObservations (d : PyDocument) : Option (List DocItem) :=
  match d.body[4]? with
  | some (DocItem.sec _ items) =>
    match items[2]? with
    | some (DocItem.subsec _ its) => some ((its.drop 4).take 3)
    | _ => none
  | _ => none

/-- A string rendered with exactly one decimal place: a point-free prefix,
then a point, then a single digit. -/
def OneDecimal (s : String) : Prop :=
  ∃ p c, s = p ++ "." ++ String.mk [c] ∧ isDig c = true ∧ '.' ∉ p.data

/-- The spec's example Dataset `[(0,0,0), (6,15,67.5), (12,0,0)]`. -/
def D3 : List Record :=
  [{ X := 0, shearForce := 0, bendingMoment := 0 },
   { X := 6, shearForce := 15, bendingMoment := mkRat 135 2 },
   { X := 12, shearForce := 0, bendingMoment := 0 }]

/-- A one-row spreadsheet whose only column is "X" (both other required
columns missing). -/
def tMissingCol : RawTable := { columns := ["X"], rows := [[CellVal.num 0]] }

/-- A one-row spreadsheet with no columns at all. -/
def tMissingX : RawTable := { columns := [], rows := [[CellVal.num 0]] }

/-- A spreadsheet with no columns and no rows. -/
def tNoCols : RawTable := { columns := [], rows := [] }

/-- A spreadsheet whose "X" cell holds text rather than a number. -/
def tTextCell : RawTable :=
  { columns := ["X", "Shear force", "Bending Moment"],
    rows := [[CellVal.text "abc", CellVal.num 0, CellVal.num 0]] }

/-- The dashed zero-reference line of the SFD plot. -/
def zeroLinePlot : String :=
  "\\addplot[color=red, dashed, line width=1pt] coordinates \x7b(0,0) (12,0)\x7d;"

/-- The two-entry SFD legend. -/
def sfdLegend : String := "\\legend\x7bShear Force, Zero Line\x7d"

/-- The single-entry BMD legend. -/
def bmdLegend : String := "\\legend\x7bBending Moment\x7d"

theorem parseNatDigits_append_singleton (l : List Nat) (d : Nat) :
    parseNatDigits (l ++ [d]) = parseNatDigits l * 10 + d := by
  simp [parseNatDigits, List.foldl_append]

theorem natDigitsAux_spec : ∀ fuel n, n < 10 ^ (fuel + 1) →
    parseNatDigits (natDigitsAux fuel n) = n
      ∧ (∀ d ∈ natDigitsAux fuel n, d < 10)
      ∧ natDigitsAux fuel n ≠ []
  | 0, n, h => by
    have hn : n < 10 := by simpa using h
    refine ⟨?_, ?_, by simp [natDigitsAux]⟩
    · simp [natDigitsAux, parseNatDigits, Nat.mod_eq_of_lt hn]
    · intro d hd
      simp [natDigitsAux] at hd
      omega
  | fuel + 1, n, h => by
    by_cases hn : n < 10
    · refine ⟨?_, ?_, by simp [natDigitsAux, hn]⟩
      · simp [natDigitsAux, hn, parseNatDigits]
      · intro d hd
        simp [natDigitsAux, hn] at hd
        omega
    · have hdiv : n / 10 < 10 ^ (fuel + 1) := by
        rw [Nat.div_lt_iff_lt_mul (by norm_num)]
        calc n < 10 ^ (fuel + 1 + 1) := h
          _ = 10 ^ (fuel + 1) * 10 := by ring
      obtain ⟨ih1, ih2, _⟩ := natDigitsAux_spec fuel (n / 10) hdiv
      refine ⟨?_, ?_, by simp [natDigitsAux, hn]⟩
      · simp only [natDigitsAux, if_neg hn]
        rw [parseNatDigits_append_singleton, ih1]
        omega
      · intro d hd
        simp only [natDigitsAux, if_neg hn, List.mem_append, List.mem_singleton] at hd
        rcases hd with hd | hd
        · exact ih2 d hd
        · omega

theorem natDigitsAux_length_le : ∀ fuel n k, n < 10 ^ k → 1 ≤ k →
    (natDigitsAux fuel n).length ≤ k
  | 0, n, k, _, hk => by simpa [natDigitsAux] using hk
  | fuel + 1, n, k, h, hk => by
    by_cases hn : n < 10
    · simpa [natDigitsAux, hn] using hk
    · have hk2 : 2 ≤ k := by
        rcases Nat.lt_or_ge k 2 with hlt | hge
        · interval_cases k <;> omega
        · exact hge
      have hdiv : n / 10 < 10 ^ (k - 1) := by
        rw [Nat.div_lt_iff_lt_mul (by norm_num)]
        calc n < 10 ^ k := h
          _ = 10 ^ (k - 1) * 10 := by
            rw [← pow_succ]
            congr 1
            omega
      have ih := natDigitsAux_length_le fuel (n / 10) (k - 1) hdiv (by omega)
      simp only [natDigitsAux, if_neg hn, List.length_append, List.length_singleton]
      omega

theorem nat_lt_ten_pow_succ (n : Nat) : n < 10 ^ (n + 1) := by
  calc n < 10 ^ n := Nat.lt_pow_self (by norm_num) n
    _ < 10 ^ (n + 1) := Nat.pow_lt_pow_succ (by norm_num)

theorem parse_natDigits (n : Nat) : parseNatDigits (natDigits n) = n :=
  (natDigitsAux_spec n n (nat_lt_ten_pow_succ n)).1

theorem natDigits_lt_ten (n : Nat) : ∀ d ∈ natDigits n, d < 10 :=
  (natDigitsAux_spec n n (nat_lt_ten_pow_succ n)).2.1

theorem natDigits_ne_nil (n : Nat) : natDigits n ≠ [] :=
  (natDigitsAux_spec n n (nat_lt_ten_pow_succ n)).2.2

theorem natDigits_length_le (n k : Nat) (h : n < 10 ^ k) (hk : 1 ≤ k) :
    (natDigits n).length ≤ k :=
  natDigitsAux_length_le n n k h hk

theorem digitVal_digitChar (d : Nat) (h : d < 10) : digitVal (digitChar d) = d := by
  interval_cases d <;> decide

theorem isDig_digitChar (d : Nat) (h : d < 10) : isDig (digitChar d) = true := by
  interval_cases d <;> decide

theorem isDig_ne (c : Char) (h : isDig c = true) :
    c ≠ '.' ∧ c ≠ ',' ∧ c ≠ ')' ∧ c ≠ '(' ∧ c ≠ '-' ∧ c ≠ 'Z' ∧ c ≠ ' ' := by
  refine ⟨?_, ?_, ?_, ?_, ?_, ?_, ?_⟩ <;>
    · intro heq
      rw [heq] at h
      exact absurd h (by decide)

theorem parseNatChars_map_digitChar (l : List Nat) (h : ∀ d ∈ l, d < 10) :
    parseNatChars (l.map digitChar) = parseNatDigits l := by
  unfold parseNatChars
  rw [List.map_map]
  congr 1
  induction l with
  | nil => rfl
  | cons d rest ih =>
    simp only [List.map_cons, Function.comp_apply]
    rw [digitVal_digitChar d (h d (by simp))]
    rw [ih (fun x hx => h x (by simp [hx]))]

theorem parseNatDigits_replicate_prepend (m : Nat) (l : List Nat) :
    parseNatDigits (List.replicate m 0 ++ l) = parseNatDigits l := by
  induction m with
  | zero => simp
  | succ m ih =>
    rw [List.replicate_succ, List.cons_append]
    simpa [parseNatDigits] using ih

theorem parseNatDigits_append_replicate (l : List Nat) (t : Nat) :
    parseNatDigits (l ++ List.replicate t 0) = parseNatDigits l * 10 ^ t := by
  induction t with
  | zero => simp
  | succ t ih =>
    rw [List.replicate_succ', ← List.append_assoc, parseNatDigits_append_singleton, ih]
    ring

theorem dropTrailZeros_decomp (l : List Nat) :
    ∃ t, l = dropTrailZeros l ++ List.replicate t 0 := by
  refine ⟨(l.reverse.takeWhile (fun d => d == 0)).length, ?_⟩
  unfold dropTrailZeros
  conv_lhs => rw [← l.reverse_reverse, ← List.takeWhile_append_dropWhile
    (p := fun d => d == 0) (l := l.reverse)]
  rw [List.reverse_append]
  congr 1
  have hall : ∀ d ∈ l.reverse.takeWhile (fun d => d == 0), d = 0 := by
    intro d hd
    simpa using List.mem_takeWhile_imp hd
  have htake : l.reverse.takeWhile (fun d => d == 0)
      = List.replicate (l.reverse.takeWhile (fun d => d == 0)).length 0 :=
    List.eq_replicate_iff.mpr ⟨rfl, hall⟩
  rw [htake, List.reverse_replicate]
  simp

theorem mem_dropTrailZeros (l : List Nat) (d : Nat) (hd : d ∈ dropTrailZeros l) : d ∈ l := by
  obtain ⟨t, ht⟩ := dropTrailZeros_decomp l
  rw [ht]
  exact List.mem_append_left _ hd

theorem takeWhile_app (p : Char → Bool) (l1 l2 : List Char) (h : ∀ c ∈ l1, p c = true) :
    (l1 ++ l2).takeWhile p = l1 ++ l2.takeWhile p := by
  induction l1 with
  | nil => simp
  | cons c rest ih =>
    simp only [List.cons_append, List.takeWhile_cons, h c (by simp), if_true]
    rw [ih (fun x hx => h x (by simp [hx]))]

theorem dropWhile_app (p : Char → Bool) (l1 l2 : List Char) (h : ∀ c ∈ l1, p c = true) :
    (l1 ++ l2).dropWhile p = l2.dropWhile p := by
  induction l1 with
  | nil => simp
  | cons c rest ih =>
    simp only [List.cons_append, List.dropWhile_cons, h c (by simp), if_true]
    exact ih (fun x hx => h x (by simp [hx]))

theorem string_data_append (a b : String) : (a ++ b).data = a.data ++ b.data := rfl

theorem string_mk_data (l : List Char) : (String.mk l).data = l := rfl

theorem min10Exp_dvd (d : Nat) (hdec : 10 ^ 19 % d = 0) : 10 ^ min10Exp d % d = 0 := by
  unfold min10Exp
  cases hfind : (List.range 20).find? (fun k => 10 ^ k % d == 0) with
  | some k =>
    have := List.find?_some hfind
    simpa using this
  | none =>
    exfalso
    have h19 := List.find?_eq_none.mp hfind 19 (by simp)
    have hd19 : ((10:ℕ) ^ 19 % d == 0) = true := by simpa using hdec
    simp only [hd19] at h19
    exact h19 trivial

theorem fracStr_spec (fr k : Nat) (hfr : fr < 10 ^ k) :
    ∃ ds : List Nat, fracStr fr k = String.mk (ds.map digitChar)
      ∧ ds ≠ [] ∧ (∀ d ∈ ds, d < 10)
      ∧ (parseNatDigits ds : ℚ) / 10 ^ ds.length = (fr : ℚ) / 10 ^ k := by
  have hparse : parseNatDigits (padTo k (natDigits fr)) = fr := by
    unfold padTo
    rw [parseNatDigits_replicate_prepend, parse_natDigits]
  obtain ⟨t, ht⟩ := dropTrailZeros_decomp (padTo k (natDigits fr))
  set ds := dropTrailZeros (padTo k (natDigits fr)) with hds
  have hval : parseNatDigits ds * 10 ^ t = fr := by
    rw [← parseNatDigits_append_replicate, ← ht, hparse]
  by_cases h0 : ds.isEmpty
  · have hnil : ds = [] := by
      simpa [List.isEmpty_iff] using h0
    have hfr0 : fr = 0 := by
      rw [← hval, hnil]
      simp [parseNatDigits]
    refine ⟨[0], ?_, by simp, by simp, ?_⟩
    · unfold fracStr
      rw [← hds, if_pos h0]
      rfl
    · rw [hfr0]
      simp [parseNatDigits]
  · have hnnil : ds ≠ [] := by
      simpa [List.isEmpty_iff] using h0
    refine ⟨ds, ?_, hnnil, ?_, ?_⟩
    · unfold fracStr
      rw [← hds, if_neg h0]
    · intro d hd
      have hmem := mem_dropTrailZeros _ _ (hds ▸ hd)
      unfold padTo at hmem
      rcases List.mem_append.mp hmem with hmem | hmem
      · have := List.eq_of_mem_replicate hmem
        omega
      · exact natDigits_lt_ten fr d hmem
    · have hk1 : 1 ≤ k := by
        by_contra hk0
        have hkz : k = 0 := by omega
        subst hkz
        have hfr0 : fr = 0 := by simpa using hfr
        apply hnnil
        rw [hds, hfr0]
        decide
      have hlenpad : (padTo k (natDigits fr)).length = k := by
        unfold padTo
        have := natDigits_length_le fr k hfr hk1
        simp only [List.length_append, List.length_replicate]
        omega
      have hlen2 : ds.length + t = k := by
        have hx : (padTo k (natDigits fr)).length = ds.length + t := by
          conv_lhs => rw [ht]
          simp
        omega
      have hnat : parseNatDigits ds * 10 ^ k = fr * 10 ^ ds.length := by
        calc parseNatDigits ds * 10 ^ k
            = parseNatDigits ds * 10 ^ (ds.length + t) := by rw [hlen2]
          _ = parseNatDigits ds * 10 ^ t * 10 ^ ds.length := by
              rw [pow_add]; ring
          _ = fr * 10 ^ ds.length := by rw [hval]
      rw [div_eq_div_iff (pow_ne_zero _ (by norm_num)) (pow_ne_zero _ (by norm_num))]
      exact_mod_cast hnat

theorem map_digitChar_all_isDig (l : List Nat) (h : ∀ d ∈ l, d < 10) :
    ∀ c ∈ l.map digitChar, isDig c = true := by
  intro c hc
  obtain ⟨d, hdm, rfl⟩ := List.mem_map.mp hc
  exact isDig_digitChar d (h d hdm)

theorem parseDecAbs_pyFloatReprAbs (n d : Nat) (hd : 0 < d) (hdec : 10 ^ 19 % d = 0) :
    parseDecAbs (pyFloatReprAbs n d).data = some ((n : ℚ) / (d : ℚ)) := by
  have hk := min10Exp_dvd d hdec
  have hdvd : d ∣ 10 ^ min10Exp d := Nat.dvd_of_mod_eq_zero hk
  simp only [pyFloatReprAbs]
  set k := min10Exp d with hkdef
  set scaled := n * 10 ^ k / d with hscaleddef
  have hscaled : scaled * d = n * 10 ^ k :=
    Nat.div_mul_cancel (Dvd.dvd.mul_left hdvd n)
  have hfrlt : scaled % 10 ^ k < 10 ^ k := Nat.mod_lt _ (by positivity)
  obtain ⟨ds, hfs, hdsnil, hdslt, hdsval⟩ := fracStr_spec (scaled % 10 ^ k) k hfrlt
  have hdata : (natStr (scaled / 10 ^ k) ++ "." ++ fracStr (scaled % 10 ^ k) k).data
      = (natDigits (scaled / 10 ^ k)).map digitChar ++ '.' :: ds.map digitChar := by
    rw [hfs, string_data_append, string_data_append]
    show (natStr _).data ++ ['.'] ++ List.map digitChar ds = _
    simp [natStr, List.append_assoc]
  rw [hdata]
  have hip_ne : ∀ c ∈ (natDigits (scaled / 10 ^ k)).map digitChar, (c != '.') = true := by
    intro c hc
    have hdig := map_digitChar_all_isDig _ (natDigits_lt_ten _) c hc
    simpa [bne_iff_ne] using (isDig_ne c hdig).1
  have hdrop : ((natDigits (scaled / 10 ^ k)).map digitChar
      ++ '.' :: ds.map digitChar).dropWhile (fun c => c != '.') = '.' :: ds.map digitChar := by
    rw [dropWhile_app _ _ _ hip_ne]
    simp [List.dropWhile_cons]
  have htake : ((natDigits (scaled / 10 ^ k)).map digitChar
      ++ '.' :: ds.map digitChar).takeWhile (fun c => c != '.')
      = (natDigits (scaled / 10 ^ k)).map digitChar := by
    rw [takeWhile_app _ _ _ hip_ne]
    simp [List.takeWhile_cons]
  simp only [parseDecAbs, hdrop, htake]
  rw [if_pos ?hcond]
  case hcond =>
    refine ⟨by trivial, by simp [natDigits_ne_nil], by simp [hdsnil], ?_⟩
    rw [List.all_eq_true]
    intro c hc
    rcases List.mem_append.mp hc with hc | hc
    · exact map_digitChar_all_isDig _ (natDigits_lt_ten _) c hc
    · exact map_digitChar_all_isDig _ hdslt c hc
  rw [parseNatChars_map_digitChar _ (natDigits_lt_ten _), parse_natDigits,
    parseNatChars_map_digitChar _ hdslt, List.length_map]
  congr 1
  rw [Rat.mkRat_eq_div]
  push_cast
  rw [div_eq_div_iff (pow_ne_zero _ (by norm_num))
    (Nat.cast_ne_zero.mpr (Nat.pos_iff_ne_zero.mp hd))]
  have hPQ : (parseNatDigits ds : ℚ) * 10 ^ k = (scaled % 10 ^ k : ℕ) * 10 ^ ds.length := by
    have := (div_eq_div_iff (pow_ne_zero ds.length ((by norm_num : (10:ℚ) ≠ 0)))
      (pow_ne_zero k ((by norm_num : (10:ℚ) ≠ 0)))).mp hdsval
    exact_mod_cast this
  have hscaledQ : (scaled : ℚ) * d = n * 10 ^ k := by exact_mod_cast hscaled
  have hdm : ((10:ℚ) ^ k) * ((scaled / 10 ^ k : ℕ) : ℚ) + ((scaled % 10 ^ k : ℕ) : ℚ)
      = (scaled : ℚ) := by exact_mod_cast Nat.div_add_mod scaled (10 ^ k)
  have hkne : ((10:ℚ) ^ k) ≠ 0 := pow_ne_zero _ (by norm_num)
  have hcastdiv : ((((scaled : ℤ) / 10 ^ k) : ℤ) : ℚ) = ((scaled / 10 ^ k : ℕ) : ℚ) := by
    norm_cast
  apply mul_right_cancel₀ hkne
  linear_combination ((10:ℚ) ^ ds.length * d) * hdm
    + ((10:ℚ) ^ ds.length) * hscaledQ + (d:ℚ) * hPQ
    + ((d:ℚ) * 10 ^ ds.length * 10 ^ k) * hcastdiv

theorem parseDecL_pyFloatRepr (q : ℚ) (h : IsDec q) :
    parseDecL (pyFloatRepr q).data = some q := by
  have hd : 0 < q.den := q.pos
  have habs := parseDecAbs_pyFloatReprAbs q.num.natAbs q.den hd h
  rcases lt_or_le q 0 with hneg | hpos
  · have hrepr : pyFloatRepr q = "-" ++ pyFloatReprAbs q.num.natAbs q.den := by
      unfold pyFloatRepr
      rw [if_pos hneg]
    rw [hrepr, string_data_append]
    show parseDecL ('-' :: (pyFloatReprAbs q.num.natAbs q.den).data) = some q
    have hstep : parseDecL ('-' :: (pyFloatReprAbs q.num.natAbs q.den).data)
        = (parseDecAbs (pyFloatReprAbs q.num.natAbs q.den).data).map (fun v => -v) := by
      simp [parseDecL]
    rw [hstep, habs, Option.map_some']
    congr 1
    have hnumneg : q.num < 0 := by
      by_contra hge
      exact absurd (Rat.num_nonneg.mp (not_lt.mp hge)) (not_le.mpr hneg)
    have hnum : (q.num.natAbs : ℚ) = -(q.num : ℚ) := by
      rw [Int.cast_natAbs, Int.cast_abs]
      exact abs_of_neg (by exact_mod_cast hnumneg)
    rw [hnum, neg_div, neg_neg, Rat.num_div_den]
  · have hrepr : pyFloatRepr q = "" ++ pyFloatReprAbs q.num.natAbs q.den := by
      unfold pyFloatRepr
      rw [if_neg (not_lt.mpr hpos)]
    rw [hrepr, string_data_append]
    show parseDecL ([] ++ (pyFloatReprAbs q.num.natAbs q.den).data) = some q
    rw [List.nil_append]
    obtain ⟨d0, l0, hcons⟩ := List.exists_cons_of_ne_nil
      (l := (natDigits (q.num.natAbs * 10 ^ min10Exp q.den / q.den / 10 ^ min10Exp q.den)).map digitChar)
      (by simp [natDigits_ne_nil])
    have hdataEq : (pyFloatReprAbs q.num.natAbs q.den).data = d0 :: (l0 ++ '.'
        :: (fracStr (q.num.natAbs * 10 ^ min10Exp q.den / q.den % 10 ^ min10Exp q.den)
          (min10Exp q.den)).data) := by
      simp only [pyFloatReprAbs]
      rw [string_data_append, string_data_append]
      show ((natDigits _).map digitChar) ++ ['.'] ++ _ = _
      rw [hcons]
      simp
    have hd0 : isDig d0 = true := by
      apply map_digitChar_all_isDig _ (natDigits_lt_ten _) d0
      rw [hcons]
      simp
    rw [hdataEq]
    rw [hdataEq] at habs
    simp only [parseDecL, if_neg (isDig_ne d0 hd0).2.2.2.2.1, habs]
    congr 1
    have hnum : (q.num.natAbs : ℚ) = (q.num : ℚ) := by
      rw [Int.cast_natAbs, Int.cast_abs]
      exact abs_of_nonneg (by exact_mod_cast Rat.num_nonneg.mpr hpos)
    rw [hnum, Rat.num_div_den]

theorem fracStr_chars (fr k : Nat) : ∀ c ∈ (fracStr fr k).data, isDig c = true := by
  intro c hc
  unfold fracStr at hc
  by_cases h0 : (dropTrailZeros (padTo k (natDigits fr))).isEmpty
  · rw [if_pos h0] at hc
    simp only [show ("0" : String).data = ['0'] from rfl, List.mem_singleton] at hc
    subst hc
    decide
  · rw [if_neg h0] at hc
    rw [string_mk_data] at hc
    obtain ⟨dd, hdd, rfl⟩ := List.mem_map.mp hc
    apply isDig_digitChar
    have hmem := mem_dropTrailZeros _ _ hdd
    unfold padTo at hmem
    rcases List.mem_append.mp hmem with hmem | hmem
    · have := List.eq_of_mem_replicate hmem
      omega
    · exact natDigits_lt_ten fr dd hmem

theorem pyFloatRepr_chars (q : ℚ) :
    ∀ c ∈ (pyFloatRepr q).data, isDig c = true ∨ c = '-' ∨ c = '.' := by
  intro c hc
  unfold pyFloatRepr at hc
  rw [string_data_append] at hc
  rcases List.mem_append.mp hc with hc | hc
  · by_cases hneg : q < 0
    · rw [if_pos hneg] at hc
      simp only [show ("-" : String).data = ['-'] from rfl, List.mem_singleton] at hc
      exact Or.inr (Or.inl hc)
    · rw [if_neg hneg] at hc
      simp at hc
  · simp only [pyFloatReprAbs, string_data_append] at hc
    rcases List.mem_append.mp hc with hc2 | hc2
    · rcases List.mem_append.mp hc2 with hc3 | hc3
      · exact Or.inl (map_digitChar_all_isDig _ (natDigits_lt_ten _) c hc3)
      · simp only [show ("." : String).data = ['.'] from rfl, List.mem_singleton] at hc3
        exact Or.inr (Or.inr hc3)
    · exact Or.inl (fracStr_chars _ _ c hc2)

theorem pyFloatRepr_sep_free (q : ℚ) (c : Char) (hc : c ∈ (pyFloatRepr q).data) :
    (c != ',') = true ∧ (c != ')') = true ∧ c ≠ 'Z' := by
  rcases pyFloatRepr_chars q c hc with hdig | hc' | hc'
  · obtain ⟨-, h1, h2, -, -, h3, -⟩ := isDig_ne c hdig
    exact ⟨by simpa [bne_iff_ne] using h1, by simpa [bne_iff_ne] using h2, h3⟩
  · subst hc'
    refine ⟨by decide, by decide, by decide⟩
  · subst hc'
    refine ⟨by decide, by decide, by decide⟩

theorem parseCoordToken_coordToken (x y : ℚ) (hx : IsDec x) (hy : IsDec y) :
    parseCoordToken ("(" ++ pyFloatRepr x ++ ", " ++ pyFloatRepr y ++ ")") = some (x, y) := by
  have hdata : ("(" ++ pyFloatRepr x ++ ", " ++ pyFloatRepr y ++ ")").data
      = '(' :: ((pyFloatRepr x).data
        ++ ',' :: ' ' :: ((pyFloatRepr y).data ++ [')'])) := by
    simp only [string_data_append]
    show ['('] ++ _ ++ [',', ' '] ++ _ ++ [')'] = _
    simp [List.append_assoc]
  have hxcomma : ∀ c ∈ (pyFloatRepr x).data, (c != ',') = true :=
    fun c hc => (pyFloatRepr_sep_free x c hc).1
  have hyparen : ∀ c ∈ (pyFloatRepr y).data, (c != ')') = true :=
    fun c hc => (pyFloatRepr_sep_free y c hc).2.1
  have hdrop1 : ((pyFloatRepr x).data
      ++ ',' :: ' ' :: ((pyFloatRepr y).data ++ [')'])).dropWhile (fun ch => ch != ',')
      = ',' :: ' ' :: ((pyFloatRepr y).data ++ [')']) := by
    rw [dropWhile_app _ _ _ hxcomma]
    simp [List.dropWhile_cons]
  have htake1 : ((pyFloatRepr x).data
      ++ ',' :: ' ' :: ((pyFloatRepr y).data ++ [')'])).takeWhile (fun ch => ch != ',')
      = (pyFloatRepr x).data := by
    rw [takeWhile_app _ _ _ hxcomma]
    simp [List.takeWhile_cons]
  have hdrop2 : ((pyFloatRepr y).data ++ [')']).dropWhile (fun ch => ch != ')')
      = [')'] := by
    rw [dropWhile_app _ _ _ hyparen]
    simp [List.dropWhile_cons]
  have htake2 : ((pyFloatRepr y).data ++ [')']).takeWhile (fun ch => ch != ')')
      = (pyFloatRepr y).data := by
    rw [takeWhile_app _ _ _ hyparen]
    simp [List.takeWhile_cons]
  simp only [parseCoordToken, hdata, hdrop1, htake1, hdrop2, htake2,
    parseDecL_pyFloatRepr x hx, parseDecL_pyFloatRepr y hy]
  simp

theorem string_ext (a b : String) (h : a.data = b.data) : a = b := by
  cases a
  cases b
  exact congrArg String.mk h

theorem except_bind_ok {ε α β : Type} (a : α) (f : α → Except ε β) :
    (Except.ok a : Except ε α) >>= f = f a := rfl

theorem except_bind_error {ε α β : Type} (e : ε) (f : α → Except ε β) :
    (Except.error e : Except ε α) >>= f = Except.error e := rfl

theorem sfdLine_record (r : Record) :
    sfdLine ["X", "Shear force", "Bending Moment"] (recordCells r)
      = Except.ok (sfdLineR r) := by
  show Except.ok ("        (" ++ pyRepr (CellVal.num r.X) ++ ", "
    ++ pyRepr (CellVal.num r.shearForce) ++ ")\n") = Except.ok (sfdLineR r)
  congr 1
  apply string_ext
  simp [sfdLineR, sfdToken, pyRepr, string_data_append, List.append_assoc]

theorem bmdLine_record (r : Record) :
    bmdLine ["X", "Shear force", "Bending Moment"] (recordCells r)
      = Except.ok (bmdLineR r) := by
  show Except.ok ("        (" ++ pyRepr (CellVal.num r.X) ++ ", "
    ++ pyRepr (CellVal.num r.bendingMoment) ++ ")\n") = Except.ok (bmdLineR r)
  congr 1
  apply string_ext
  simp [bmdLineR, bmdToken, pyRepr, string_data_append, List.append_assoc]

theorem sfdCoordString_records (df : List Record) :
    sfdCoordString ["X", "Shear force", "Bending Moment"] (df.map recordCells)
      = Except.ok (strConcat (df.map sfdLineR)) := by
  induction df with
  | nil => rfl
  | cons r rest ih =>
    simp only [List.map_cons, sfdCoordString, sfdLine_record, except_bind_ok, ih]
    rfl

theorem bmdCoordString_records (df : List Record) :
    bmdCoordString ["X", "Shear force", "Bending Moment"] (df.map recordCells)
      = Except.ok (strConcat (df.map bmdLineR)) := by
  induction df with
  | nil => rfl
  | cons r rest ih =>
    simp only [List.map_cons, bmdCoordString, bmdLine_record, except_bind_ok, ih]
    rfl

theorem generate_sfd_plot_dataset (df : List Record) :
    generate_sfd_plot (datasetTable df)
      = Except.ok (sfdHeader ++ strConcat (df.map sfdLineR) ++ sfdFooter) := by
  show (sfdCoordString (datasetTable df).columns (datasetTable df).rows >>= fun c =>
    pure (sfdHeader ++ c ++ sfdFooter)) = _
  rw [show (datasetTable df).columns = ["X", "Shear force", "Bending Moment"] from rfl,
    show (datasetTable df).rows = df.map recordCells from rfl,
    sfdCoordString_records, except_bind_ok]
  rfl

theorem generate_bmd_plot_dataset (df : List Record) :
    generate_bmd_plot (datasetTable df)
      = Except.ok (bmdHeader ++ strConcat (df.map bmdLineR) ++ bmdFooter) := by
  show (bmdCoordString (datasetTable df).columns (datasetTable df).rows >>= fun c =>
    pure (bmdHeader ++ c ++ bmdFooter)) = _
  rw [show (datasetTable df).columns = ["X", "Shear force", "Bending Moment"] from rfl,
    show (datasetTable df).rows = df.map recordCells from rfl,
    bmdCoordString_records, except_bind_ok]
  rfl

theorem tableRow_record (r : Record) :
    tableRow ["X", "Shear force", "Bending Moment"] (recordCells r)
      = Except.ok (recordTableRow r) := rfl

theorem buildTableRows_records (df : List Record) :
    buildTableRows ["X", "Shear force", "Bending Moment"] (df.map recordCells)
      = Except.ok (df.map recordTableRow) := by
  induction df with
  | nil => rfl
  | cons r rest ih =>
    simp only [List.map_cons, buildTableRows, tableRow_record, except_bind_ok, ih]
    rfl

/-- Any numeric Dataset flows through the whole pipeline without an
exception, producing the fixed document around its three data-dependent
fragments. -/
theorem generate_beam_report_dataset (today : String) (df : List Record) :
    generate_beam_report today (some (datasetTable df))
      = Except.ok (mkReportDoc (df.map recordTableRow)
          (sfdHeader ++ strConcat (df.map sfdLineR) ++ sfdFooter)
          (bmdHeader ++ strConcat (df.map bmdLineR) ++ bmdFooter)) := by
  unfold generate_beam_report
  simp only [read_excel]
  rw [show (datasetTable df).columns = ["X", "Shear force", "Bending Moment"] from rfl,
    show (datasetTable df).rows = df.map recordCells from rfl]
  simp only [buildTableRows_records, generate_sfd_plot_dataset, generate_bmd_plot_dataset]

/-- A successful run always yields the fixed document skeleton: only the
table body and the two plot fragments depend on the input. -/
theorem generate_beam_report_ok_shape (today : String) (file : Option RawTable)
    (d : PyDocument) (h : generate_beam_report today file = Except.ok d) :
    ∃ tbl sfd bmd, d = mkReportDoc tbl sfd bmd := by
  unfold generate_beam_report at h
  cases file with
  | none => simp [read_excel] at h
  | some t =>
    simp only [read_excel] at h
    cases htbl : buildTableRows t.columns t.rows with
    | error e =>
      rw [htbl] at h
      simp at h
    | ok tbl =>
      rw [htbl] at h
      cases hsfd : generate_sfd_plot t with
      | error e =>
        rw [hsfd] at h
        simp at h
      | ok sfd =>
        rw [hsfd] at h
        cases hbmd : generate_bmd_plot t with
        | error e =>
          rw [hbmd] at h
          simp at h
        | ok bmd =>
          rw [hbmd] at h
          simp only [Except.ok.injEq] at h
          exact ⟨tbl, sfd, bmd, h.symm⟩

theorem colIndex_eq_none (c : String) (cols : List String) (h : c ∉ cols) :
    colIndex c cols = none := by
  induction cols with
  | nil => rfl
  | cons c2 rest ih =>
    unfold colIndex
    rw [if_neg (by simp at h; exact Ne.symm h.1), ih (by simp at h; exact h.2)]
    rfl

theorem contains_mem (s pat : String) (h : Contains s pat) {c : Char}
    (hc : c ∈ pat.data) : c ∈ s.data := by
  obtain ⟨u, v, huv⟩ := h
  rw [← huv]
  simp [hc]

theorem contains_append_right (x s pat : String) (h : Contains s pat) :
    Contains (x ++ s) pat := by
  unfold Contains
  rw [string_data_append]
  exact h.trans ( List.IsSuffix.isInfix (List.suffix_append x.data s.data))

theorem contains_append_left (s x pat : String) (h : Contains s pat) :
    Contains (s ++ x) pat := by
  unfold Contains
  rw [string_data_append]
  exact h.trans ( List.IsPrefix.isInfix (List.prefix_append s.data x.data))

theorem strConcat_mem (l : List String) (c : Char) (hc : c ∈ (strConcat l).data) :
    ∃ s ∈ l, c ∈ s.data := by
  induction l with
  | nil => simp [strConcat] at hc
  | cons s rest ih =>
    unfold strConcat at hc
    rw [string_data_append] at hc
    rcases List.mem_append.mp hc with h | h
    · exact ⟨s, by simp, h⟩
    · obtain ⟨s2, hs2, hcs2⟩ := ih h
      exact ⟨s2, by simp [hs2], hcs2⟩

theorem natDigits_of_lt (d : Nat) (h : d < 10) : natDigits d = [d] := by
  unfold natDigits
  cases d with
  | zero => rfl
  | succ m => simp [natDigitsAux, h]

theorem fmt_1f_oneDecimal (q : ℚ) : OneDecimal (fmt_1f q) := by
  refine ⟨(if q < 0 then "-" else "")
      ++ natStr (roundHalfEvenNat (q.num.natAbs * 10) q.den / 10),
    digitChar (roundHalfEvenNat (q.num.natAbs * 10) q.den % 10), ?_, ?_, ?_⟩
  · show (if q < 0 then "-" else "")
        ++ natStr (roundHalfEvenNat (q.num.natAbs * 10) q.den / 10) ++ "."
        ++ natStr (roundHalfEvenNat (q.num.natAbs * 10) q.den % 10) = _
    congr 1
    unfold natStr
    rw [natDigits_of_lt _ (Nat.mod_lt _ (by norm_num))]
    rfl
  · exact isDig_digitChar _ (Nat.mod_lt _ (by norm_num))
  · intro hmem
    rw [string_data_append] at hmem
    rcases List.mem_append.mp hmem with h | h
    · by_cases hq : q < 0
      · rw [if_pos hq] at h
        simp at h
      · rw [if_neg hq] at h
        simp at h
    · have := map_digitChar_all_isDig _ (natDigits_lt_ten _) '.' h
      exact absurd this (by decide)

theorem pyFloatRepr_no_Z (q : ℚ) (hc : 'Z' ∈ (pyFloatRepr q).data) : False :=
  (pyFloatRepr_sep_free q 'Z' hc).2.2 rfl

theorem sfdLineR_no_Z (r : Record) (hc : 'Z' ∈ (sfdLineR r).data) : False := by
  unfold sfdLineR sfdToken at hc
  simp only [string_data_append, List.mem_append] at hc
  rcases hc with (h | ((((h | h) | h) | h) | h)) | h
  · exact absurd h (by decide)
  · exact absurd h (by decide)
  · exact pyFloatRepr_no_Z _ h
  · exact absurd h (by decide)
  · exact pyFloatRepr_no_Z _ h
  · exact absurd h (by decide)
  · exact absurd h (by decide)

theorem bmdLineR_no_Z (r : Record) (hc : 'Z' ∈ (bmdLineR r).data) : False := by
  unfold bmdLineR bmdToken at hc
  simp only [string_data_append, List.mem_append] at hc
  rcases hc with (h | ((((h | h) | h) | h) | h)) | h
  · exact absurd h (by decide)
  · exact absurd h (by decide)
  · exact pyFloatRepr_no_Z _ h
  · exact absurd h (by decide)
  · exact pyFloatRepr_no_Z _ h
  · exact absurd h (by decide)
  · exact absurd h (by decide)

theorem bmd_plot_no_Z (df : List Record) :
    'Z' ∉ (bmdHeader ++ strConcat (df.map bmdLineR) ++ bmdFooter).data := by
  intro hmem
  simp only [string_data_append, List.mem_append] at hmem
  rcases hmem with (h | h) | h
  · exact absurd h (by decide)
  · obtain ⟨s, hs, hcs⟩ := strConcat_mem _ _ h
    obtain ⟨r, _, rfl⟩ := List.mem_map.mp hs
    exact bmdLineR_no_Z r hcs
  · exact absurd h (by decide)

/-- C1: for every Dataset D, the Coordinate Formatter (for either field
selector) produces exactly |D| coordinate tokens, one per Record, in D's
order: the generated plot is exactly header, then the in-order
concatenation of one coordinate line per Record, then footer, and the
token list is the elementwise image of D - so nothing is reordered,
sorted, skipped or deduplicated, even when two Records share an X value. -/
theorem C1_formatter_count_order (df : List Record) :
    generate_sfd_plot (datasetTable df)
        = Except.ok (sfdHeader ++ strConcat (df.map sfdLineR) ++ sfdFooter)
      ∧ generate_bmd_plot (datasetTable df)
        = Except.ok (bmdHeader ++ strConcat (df.map bmdLineR) ++ bmdFooter)
      ∧ (df.map sfdToken).length = df.length
      ∧ (df.map bmdToken).length = df.length
      ∧ (∀ i : Nat, (df.map sfdToken)[i]? = (df[i]?).map sfdToken)
      ∧ (∀ i : Nat, (df.map bmdToken)[i]? = (df[i]?).map bmdToken) :=
  ⟨generate_sfd_plot_dataset df, generate_bmd_plot_dataset df,
    by simp, by simp, fun i => by simp, fun i => by simp⟩

/-- C2: for every Dataset D, the assembled document's data table consists
of the header row plus exactly |D| data rows, one per Record in order, and
every data row renders the Record's Position, ShearForce and BendingMoment
with exactly one decimal place (the `.1f` rendering). -/
theorem C2_table_shape (today : String) (df : List Record) :
    ∃ d, generate_beam_report today (some (datasetTable df)) = Except.ok d
      ∧ dataSourceRows d = some (headerRow :: df.map recordTableRow)
      ∧ (headerRow :: df.map recordTableRow).length = df.length + 1
      ∧ (∀ i : Nat, (df.map recordTableRow)[i]? = (df[i]?).map recordTableRow)
      ∧ (∀ r : Record,
          recordTableRow r = [fmt_1f r.X, fmt_1f r.shearForce, fmt_1f r.bendingMoment])
      ∧ (∀ v : ℚ, OneDecimal (fmt_1f v)) :=
  ⟨_, generate_beam_report_dataset today df, rfl, by simp, fun i => by simp,
    fun r => rfl, fmt_1f_oneDecimal⟩

/-- C3 counterexample: on the example Dataset the formatter's tokens are
"(0.0, 0.0)", "(6.0, 15.0)", "(12.0, 0.0)" (float rendering, space after
the comma), not the claimed "(0,0)", "(6,15)", "(12,0)", and the claimed
space-separated coordinate list occurs nowhere in either generated plot. -/
theorem C3_counterexample :
    List.map sfdToken D3 = ["(0.0, 0.0)", "(6.0, 15.0)", "(12.0, 0.0)"]
      ∧ List.map bmdToken D3 = ["(0.0, 0.0)", "(6.0, 67.5)", "(12.0, 0.0)"]
      ∧ List.map sfdToken D3 ≠ ["(0,0)", "(6,15)", "(12,0)"]
      ∧ List.map bmdToken D3 ≠ ["(0,0)", "(6,67.5)", "(12,0)"]
      ∧ String.intercalate " " (D3.map sfdToken) ≠ "(0,0) (6,15) (12,0)"
      ∧ String.intercalate " " (D3.map bmdToken) ≠ "(0,0) (6,67.5) (12,0)"
      ∧ ¬ Contains (strConcat (D3.map sfdLineR)) "(0,0) (6,15) (12,0)"
      ∧ ¬ Contains (strConcat (D3.map bmdLineR)) "(0,0) (6,67.5) (12,0)"
      ∧ generate_sfd_plot (datasetTable D3)
          = Except.ok (sfdHeader ++ strConcat (D3.map sfdLineR) ++ sfdFooter)
      ∧ generate_bmd_plot (datasetTable D3)
          = Except.ok (bmdHeader ++ strConcat (D3.map bmdLineR) ++ bmdFooter) :=
  ⟨by decide, by decide, by decide, by decide, by decide, by decide, by decide, by decide,
    generate_sfd_plot_dataset D3, generate_bmd_plot_dataset D3⟩

/-- C3 amended: for the Dataset [(0,0,0), (6,15,67.5), (12,0,0)] the SFD
coordinate section is the lines "        (0.0, 0.0)", "        (6.0, 15.0)",
"        (12.0, 0.0)" and the BMD section "        (0.0, 0.0)",
"        (6.0, 67.5)", "        (12.0, 0.0)" (pandas iterrows upcasts the
integer columns to float64, so every value renders with a trailing .0),
and the document table holds the three rows at one-decimal precision. -/
theorem C3_amended (today : String) :
    generate_sfd_plot (datasetTable D3) = Except.ok (sfdHeader
        ++ "        (0.0, 0.0)\n        (6.0, 15.0)\n        (12.0, 0.0)\n" ++ sfdFooter)
      ∧ generate_bmd_plot (datasetTable D3) = Except.ok (bmdHeader
        ++ "        (0.0, 0.0)\n        (6.0, 67.5)\n        (12.0, 0.0)\n" ++ bmdFooter)
      ∧ ∃ d, generate_beam_report today (some (datasetTable D3)) = Except.ok d
        ∧ dataSourceRows d = some [headerRow,
            ["0.0", "0.0", "0.0"], ["6.0", "15.0", "67.5"], ["12.0", "0.0", "0.0"]] :=
  ⟨by decide, by decide, _, generate_beam_report_dataset today D3, by decide⟩

/-- C4 counterexample: the Loader (read_excel) accepts a table missing
required columns; the missing column is raised only later, as a KeyError
while the data table is assembled - and when the table has no columns and
no rows at all, the whole pipeline even succeeds. -/
theorem C4_counterexample :
    read_excel (some tMissingCol) = Except.ok tMissingCol
      ∧ generate_beam_report "" (some tMissingCol)
          = Except.error (PipeError.keyError "Shear force")
      ∧ read_excel (some tNoCols) = Except.ok tNoCols
      ∧ generate_beam_report "" (some tNoCols)
          = Except.ok (mkReportDoc [] (sfdHeader ++ "" ++ sfdFooter)
              (bmdHeader ++ "" ++ bmdFooter)) :=
  ⟨rfl, rfl, rfl, rfl⟩

/-- C4 amended: the Loader stage fails exactly on a missing/unreadable
file; a missing required column is not caught at the Loader but surfaces
as a KeyError while formatting the first data row of the table (and never
surfaces when there are no data rows), and an unparseable (text) numeric
cell likewise surfaces there as a ValueError, not at load time. -/
theorem C4_amended (today : String) (t u : RawTable)
    (hcol : "X" ∉ t.columns) (hrows : t.rows ≠ []) :
    read_excel none = Except.error PipeError.fileNotFound
      ∧ read_excel (some u) = Except.ok u
      ∧ generate_beam_report today (some t) = Except.error (PipeError.keyError "X")
      ∧ generate_beam_report today (some tTextCell) = Except.error PipeError.valueError := by
  refine ⟨rfl, rfl, ?_, rfl⟩
  obtain ⟨row, rest, hr⟩ := List.exists_cons_of_ne_nil hrows
  unfold generate_beam_report
  simp only [read_excel]
  rw [hr]
  have hx : rowVal t.columns row "X" = Except.error (PipeError.keyError "X") := by
    unfold rowVal
    rw [colIndex_eq_none _ _ hcol]
  simp only [buildTableRows, tableRow, fmtCell, hx, except_bind_error]

/-- Witness for the amended C4 at concrete inputs. -/
theorem C4_amended_witness :
    read_excel none = Except.error PipeError.fileNotFound
      ∧ read_excel (some tMissingCol) = Except.ok tMissingCol
      ∧ generate_beam_report "" (some tMissingX) = Except.error (PipeError.keyError "X")
      ∧ generate_beam_report "" (some tTextCell) = Except.error PipeError.valueError :=
  C4_amended "" tMissingX tMissingCol (by decide) (by decide)

/-- C5: a missing input spreadsheet aborts the run with the Loader's
file-not-found error before any document value exists, and no artifact
file is written. -/
theorem C5_missing_file (today : String) :
    read_excel none = Except.error PipeError.fileNotFound
      ∧ generate_beam_report today none = Except.error PipeError.fileNotFound
      ∧ writtenFiles (generate_beam_report today none) = [] :=
  ⟨rfl, rfl, rfl⟩

/-- C6: the empty Dataset flows through without an error: the document is
produced with a table of only the header row, both plots carry an empty
coordinate section, and the artifacts are written. -/
theorem C6_empty_dataset (today : String) :
    generate_beam_report today (some (datasetTable []))
        = Except.ok (mkReportDoc [] (sfdHeader ++ "" ++ sfdFooter)
            (bmdHeader ++ "" ++ bmdFooter))
      ∧ dataSourceRows (mkReportDoc [] (sfdHeader ++ "" ++ sfdFooter)
          (bmdHeader ++ "" ++ bmdFooter)) = some [headerRow]
      ∧ generate_sfd_plot (datasetTable []) = Except.ok (sfdHeader ++ "" ++ sfdFooter)
      ∧ generate_bmd_plot (datasetTable []) = Except.ok (bmdHeader ++ "" ++ bmdFooter)
      ∧ writtenFiles (generate_beam_report today (some (datasetTable [])))
          = ["beam_analysis_report.pdf", "beam_analysis_report.tex"] :=
  ⟨rfl, rfl, rfl, rfl, rfl⟩

/-- C7: the assembled document is a deterministic function of the input
data alone; the ambient date cannot influence it (the source embeds the
literal macro rather than the date), so two runs on an unchanged input
produce identical generated source, date field included. -/
theorem C7_deterministic (t1 t2 : String) (file : Option RawTable) :
    generate_beam_report t1 file = generate_beam_report t2 file := rfl

/-- C8: formatting a Dataset into coordinate tokens and parsing the tokens
back recovers exactly the original (x, y) pairs, for every value in the
rendered-precision domain (finite decimal expansion). -/
theorem C8_roundtrip (df : List Record)
    (h : ∀ r ∈ df, IsDec r.X ∧ IsDec r.shearForce ∧ IsDec r.bendingMoment) :
    (df.map sfdToken).map parseCoordToken = df.map (fun r => some (r.X, r.shearForce))
      ∧ (df.map bmdToken).map parseCoordToken
        = df.map (fun r => some (r.X, r.bendingMoment)) := by
  induction df with
  | nil => exact ⟨rfl, rfl⟩
  | cons r rest ih =>
    have hr := h r (by simp)
    have ihr := ih (fun r2 hr2 => h r2 (by simp [hr2]))
    refine ⟨?_, ?_⟩
    · simp only [List.map_cons]
      rw [show sfdToken r
          = "(" ++ pyFloatRepr r.X ++ ", " ++ pyFloatRepr r.shearForce ++ ")" from rfl,
        parseCoordToken_coordToken _ _ hr.1 hr.2.1, ihr.1]
    · simp only [List.map_cons]
      rw [show bmdToken r
          = "(" ++ pyFloatRepr r.X ++ ", " ++ pyFloatRepr r.bendingMoment ++ ")" from rfl,
        parseCoordToken_coordToken _ _ hr.1 hr.2.2, ihr.2]

/-- Witness for C8 on the example Dataset. -/
theorem C8_roundtrip_witness :
    (D3.map sfdToken).map parseCoordToken = D3.map (fun r => some (r.X, r.shearForce))
      ∧ (D3.map bmdToken).map parseCoordToken
        = D3.map (fun r => some (r.X, r.bendingMoment)) :=
  C8_roundtrip D3 (by decide)

/-- C9: every successfully assembled document carries the same two fixed
"Key Observations" bullet lists, independent of the input file's
contents. -/
theorem C9_fixed_observations (today : String) (file : Option RawTable) (d : PyDocument)
    (h : generate_beam_report today file = Except.ok d) :
    sfdObservations d = some [
        DocItem.noescape "\\item Maximum shear force: 45 kN",
        DocItem.noescape "\\item Zero shear occurs at 7.5 m from left support",
        DocItem.noescape "\\item Shear force changes sign at the point of maximum moment"]
      ∧ bmdObservations d = some [
        DocItem.noescape "\\item Maximum bending moment: 168.75 kNm at 7.5 m",
        DocItem.noescape "\\item Zero moments occur at both supports",
        DocItem.noescape "\\item Parabolic distribution indicates uniformly distributed load"] := by
  obtain ⟨tbl, sfd, bmd, rfl⟩ := generate_beam_report_ok_shape today file d h
  exact ⟨rfl, rfl⟩

/-- Witness for C9 on the empty Dataset's document. -/
theorem C9_fixed_observations_witness :
    sfdObservations (mkReportDoc [] (sfdHeader ++ "" ++ sfdFooter)
        (bmdHeader ++ "" ++ bmdFooter)) = some [
        DocItem.noescape "\\item Maximum shear force: 45 kN",
        DocItem.noescape "\\item Zero shear occurs at 7.5 m from left support",
        DocItem.noescape "\\item Shear force changes sign at the point of maximum moment"]
      ∧ bmdObservations (mkReportDoc [] (sfdHeader ++ "" ++ sfdFooter)
        (bmdHeader ++ "" ++ bmdFooter)) = some [
        DocItem.noescape "\\item Maximum bending moment: 168.75 kNm at 7.5 m",
        DocItem.noescape "\\item Zero moments occur at both supports",
        DocItem.noescape "\\item Parabolic distribution indicates uniformly distributed load"] :=
  C9_fixed_observations "" (some (datasetTable [])) _ rfl

/-- C10: for every Dataset, the SFD fragment contains the fixed dashed
zero-reference line "(0,0) (12,0)" and the two-entry legend
"Shear Force, Zero Line", while the BMD fragment carries the single-entry
legend "Bending Moment" and contains no zero line (indeed no occurrence of
"Zero Line" or of the SFD legend at all). -/
theorem C10_plot_asymmetry (df : List Record) :
    generate_sfd_plot (datasetTable df)
        = Except.ok (sfdHeader ++ strConcat (df.map sfdLineR) ++ sfdFooter)
      ∧ Contains (sfdHeader ++ strConcat (df.map sfdLineR) ++ sfdFooter) zeroLinePlot
      ∧ Contains (sfdHeader ++ strConcat (df.map sfdLineR) ++ sfdFooter) sfdLegend
      ∧ generate_bmd_plot (datasetTable df)
        = Except.ok (bmdHeader ++ strConcat (df.map bmdLineR) ++ bmdFooter)
      ∧ Contains (bmdHeader ++ strConcat (df.map bmdLineR) ++ bmdFooter) bmdLegend
      ∧ ¬ Contains (bmdHeader ++ strConcat (df.map bmdLineR) ++ bmdFooter) "Zero Line"
      ∧ ¬ Contains (bmdHeader ++ strConcat (df.map bmdLineR) ++ bmdFooter) sfdLegend := by
  refine ⟨generate_sfd_plot_dataset df, ?_, ?_, generate_bmd_plot_dataset df, ?_, ?_, ?_⟩
  · exact contains_append_right _ _ _ (by decide)
  · exact contains_append_right _ _ _ (by decide)
  · exact contains_append_right _ _ _ (by decide)
  · intro hcon
    exact bmd_plot_no_Z df (contains_mem _ _ hcon (by decide))
  · intro hcon
    exact bmd_plot_no_Z df (contains_mem _ _ hcon (by decide))
